import Mathlib

/-!
Verification development for the Stuttgart Property Tracker backend.

The model is a shallow embedding of the Python sources:
- `src/property_scraper.py` — the live orchestrator (`PropertyTrackerService`
  with `search_all_sources` and `get_stats`, adapters with `is_cache_valid`);
- `src/property_scraper_cached.py` — the cached-only serving mode
  (`search_all_sources` filtering the hard-coded `CACHED_PROPERTIES`, and its
  own `get_stats`);
- `src/scraper_script.py` — the scheduled scraper whose `main` deduplicates
  with the same `(title, price, location)` key.

Modelling conventions:
- Python dicts that may or may not carry a key are records with `Option`
  fields; `d.get(k, default)` becomes `field.getD default`.
- Python ints are `Int`, floats are exact rationals `ℚ`.
- Python `round(x, 2)` (round-half-to-even) is `round2`.
- A `ZeroDivisionError` escaping `get_stats` is the `StatsResult.raised`
  constructor; the literal `{}` the live `get_stats` returns on empty input is
  `StatsResult.emptyDict`.
- `list.sort(key=...)` (a stable sort) is `List.mergeSort` on the same key.
-/

namespace PropertyTracker

/-- A property listing: the dict shape produced by `normalize_property` /
stored in `CACHED_PROPERTIES`.  Every field is `Option` because the Python
dicts are accessed with `.get` and a key may be absent. -/
structure Listing where
  title : Option String := none
  price : Option Int := none
  area : Option ℚ := none
  rooms : Option Int := none
  location : Option String := none
  source : Option String := none
  daysOnMarket : Option Int := none
  yearBuilt : Option Int := none
  heatingType : Option String := none
  features : Option (List String) := none
  url : Option String := none
  scrapedAt : Option String := none
  deriving DecidableEq, Repr

/-- The `priceRange` sub-dict of the statistics. -/
structure PriceRange where
  min : Int
  max : Int
  deriving DecidableEq, Repr

/-- The statistics dict built by `get_stats` (field names from the code). -/
structure Stats where
  totalFound : Nat
  avgPricePerSqm : ℚ
  preMarketCount : Nat
  timeAdvantageHours : String
  priceRange : PriceRange
  deriving DecidableEq, Repr

/-- Possible outcomes of the live `get_stats` (property_scraper.py:409-426):
`raised` models a `ZeroDivisionError` escaping the function, `emptyDict` the
literal `{}` returned for empty input, `record` a fully populated stats dict. -/
inductive StatsResult where
  | raised
  | emptyDict
  | record (s : Stats)
  deriving DecidableEq, Repr

/-- Round-half-to-even to an integer (Python's `round` on an exact value). -/
def rndHalfToEven (q : ℚ) : ℤ :=
  let f := ⌊q⌋
  if q - f < 1 / 2 then f
  else if 1 / 2 < q - f then f + 1
  else if f % 2 = 0 then f else f + 1

/-- Python's `round(x, 2)` on an exact rational. -/
def round2 (q : ℚ) : ℚ := (rndHalfToEven (100 * q) : ℚ) / 100

/-- Python division: raises (`none`) when the denominator is zero. -/
def pyDiv (a b : ℚ) : Option ℚ := if b = 0 then none else some (a / b)

/-- Python `min` over a list; the 0 default is never used at call sites,
which guard for non-emptiness. -/
def pyListMin (l : List Int) : Int :=
  match l with
  | [] => 0
  | x :: xs => xs.foldl min x

/-- Python `max` over a list; the 0 default is never used at call sites. -/
def pyListMax (l : List Int) : Int :=
  match l with
  | [] => 0
  | x :: xs => xs.foldl max x

/-- `PropertyTrackerService.get_stats` of the live orchestrator
(src/property_scraper.py:409-426).  Empty input returns the literal `{}`;
otherwise `prices_per_sqm = [p.get("price", 0) / p.get("area", 1) for p in
properties]` is evaluated first and raises `ZeroDivisionError` whenever some
record carries `area` equal to 0 (the `.get` default 1 only guards the
absent-key case). -/
def get_stats_live (properties : List Listing) : StatsResult :=
  if properties.isEmpty then .emptyDict
  else
    match properties.mapM
        (fun p => pyDiv ((p.price.getD 0 : Int) : ℚ) (p.area.getD 1)) with
    | none => .raised
    | some prices_per_sqm =>
      let pre_market := properties.filter (fun p => decide (p.daysOnMarket.getD 7 ≤ 7))
      .record
        { totalFound := properties.length
          avgPricePerSqm := round2 (prices_per_sqm.sum / (prices_per_sqm.length : ℚ))
          preMarketCount := pre_market.length
          timeAdvantageHours := if pre_market.isEmpty then "-" else "48-72"
          priceRange :=
            { min := pyListMin (properties.map (fun p => p.price.getD 0))
              max := pyListMax (properties.map (fun p => p.price.getD 0)) } }

/-- `PropertyTrackerService.get_stats` of the cached-only mode
(src/property_scraper_cached.py:281-308).  Empty input returns the explicit
zero-valued record; the per-area average only ranges over records with
`p.get("area", 0) > 0`, and is 0 when that list is empty. -/
def get_stats_cached (properties : List Listing) : Stats :=
  if properties.isEmpty then
    { totalFound := 0
      avgPricePerSqm := 0
      preMarketCount := 0
      timeAdvantageHours := "-"
      priceRange := { min := 0, max := 0 } }
  else
    let prices_per_sqm :=
      (properties.filter (fun p => decide ((0 : ℚ) < p.area.getD 0))).map
        (fun p => ((p.price.getD 0 : Int) : ℚ) / p.area.getD 1)
    let pre_market := properties.filter (fun p => decide (p.daysOnMarket.getD 7 ≤ 7))
    { totalFound := properties.length
      avgPricePerSqm :=
        if prices_per_sqm.isEmpty then 0
        else round2 (prices_per_sqm.sum / (prices_per_sqm.length : ℚ))
      preMarketCount := pre_market.length
      timeAdvantageHours := if pre_market.isEmpty then "-" else "48-72"
      priceRange :=
        { min := pyListMin (properties.map (fun p => p.price.getD 0))
          max := pyListMax (properties.map (fun p => p.price.getD 0)) } }

/-- The search filters dict: every key optional
(the callers pass arbitrary JSON bodies). -/
structure Filters where
  minPrice : Option Int := none
  maxPrice : Option Int := none
  minArea : Option ℚ := none
  region : Option String := none
  sources : Option (List String) := none
  deriving DecidableEq, Repr

/-- The three configured source tags — the keys of `self.adapters` in the live
orchestrator and the default `sources` list in both serving modes. -/
def ALL_SOURCES : List String := ["sparkasse", "volksbank", "lbs"]

/-- Worker for `splitTokens`: walks the characters, accumulating the current
token in reverse. -/
def tokenizeAux : List Char → List Char → List String
  | [], [] => []
  | [], cur => [String.mk cur.reverse]
  | c :: cs, cur =>
    if c.isWhitespace then
      match cur with
      | [] => tokenizeAux cs []
      | _ => String.mk cur.reverse :: tokenizeAux cs []
    else tokenizeAux cs (c :: cur)

/-- Python's `str.split()` with no arguments: split on whitespace runs,
discarding empty pieces (never produces the empty string as a token). -/
def splitTokens (s : String) : List String := tokenizeAux s.data []

/-- `List.isPrefixOf` as a recursive Boolean on characters. -/
def prefixChars : List Char → List Char → Bool
  | [], _ => true
  | _ :: _, [] => false
  | p :: ps, c :: cs => decide (p = c) && prefixChars ps cs

/-- Python's `str.startswith`. -/
def pyStartsWith (s pre : String) : Bool := prefixChars pre.data s.data

/-- The per-record filter of the cached-only
`PropertyTrackerService.search_all_sources`
(src/property_scraper_cached.py:242-273): price within
`[minPrice, maxPrice]` (absent bounds are 0 / +inf), `area ≥ minArea`,
`source` a member of `sources` (default all three tags), and — when the
`region` string is non-empty — either the location splits into zero
whitespace tokens (the code's `if postal_parts:` guard then skips the region
check and the record is kept) or the last token starts with `region`. -/
def matchesFilters (f : Filters) (p : Listing) : Bool :=
  let price := p.price.getD 0
  let priceOk := decide (f.minPrice.getD 0 ≤ price) &&
    (match f.maxPrice with
     | none => true
     | some m => decide (price ≤ m))
  let areaOk := decide (f.minArea.getD 0 ≤ p.area.getD 0)
  let sourceOk :=
    match p.source with
    | none => false
    | some s => decide (s ∈ f.sources.getD ALL_SOURCES)
  let region := f.region.getD ""
  let regionOk :=
    if region = "" then true
    else
      match (splitTokens (p.location.getD "")).getLast? with
      | none => true
      | some postal => pyStartsWith postal region
  priceOk && areaOk && sourceOk && regionOk

/-- Sort key of both serving modes: `x.get("daysOnMarket", 999)`. -/
def daysKey (p : Listing) : Int := p.daysOnMarket.getD 999

/-- The Boolean comparison fed to the stable sort. -/
def leDays (a b : Listing) : Bool := decide (daysKey a ≤ daysKey b)

/-- `list.sort(key=lambda x: x.get("daysOnMarket", 999))` — Python's sort is
stable, modelled by the (stable) `List.mergeSort`. -/
def sortByDaysOnMarket (l : List Listing) : List Listing := l.mergeSort leDays

/-- The filtering loop of the cached-only `search_all_sources`, over the list
it iterates (the code iterates the global `CACHED_PROPERTIES`). -/
def filterCatalog (f : Filters) (catalog : List Listing) : List Listing :=
  catalog.filter (matchesFilters f)

/-- The dedup key of the orchestrator's merge and of `scraper_script.main`:
`(prop.get("title"), prop.get("price"), prop.get("location"))`. -/
def dedupKey (p : Listing) : Option String × Option Int × Option String :=
  (p.title, p.price, p.location)

/-- The dedup loop (src/property_scraper.py:394-402 and
src/scraper_script.py:349-356) with its `seen` set of keys. -/
def dedupAux (seen : List (Option String × Option Int × Option String)) :
    List Listing → List Listing
  | [] => []
  | p :: ps =>
    if dedupKey p ∈ seen then dedupAux seen ps
    else p :: dedupAux (dedupKey p :: seen) ps

/-- Deduplication by `(title, price, location)`, first occurrence wins. -/
def removeDuplicates (l : List Listing) : List Listing := dedupAux [] l

/-- Adapter selection of the live orchestrator
(src/property_scraper.py:386-392): iterate
`filters.get("sources", ["sparkasse", "volksbank", "lbs"])`, skipping every
tag that is not a key of `self.adapters`. -/
def selectedSources (f : Filters) : List String :=
  (f.sources.getD ALL_SOURCES).filter (fun s => decide (s ∈ ALL_SOURCES))

/-- The merged `all_properties` list of the live orchestrator: the
concatenation, in adapter-selection order, of what each selected adapter's
`fetch_properties` returned (`fetch` maps a source tag to that list). -/
def mergedProperties (fetch : String → List Listing) (f : Filters) : List Listing :=
  (selectedSources f).flatMap fetch

/-- `PropertyTrackerService.search_all_sources` of the live orchestrator
(src/property_scraper.py:371-407): merge, deduplicate, stable-sort by
`daysOnMarket` (absent → 999). -/
def search_all_sources_live (fetch : String → List Listing) (f : Filters) :
    List Listing :=
  sortByDaysOnMarket (removeDuplicates (mergedProperties fetch f))

/-- `self.cache_timeout = 3600` — 1 hour, set unconditionally in
`PropertyAdapter.__init__` (src/property_scraper.py:37-42). -/
def cache_timeout : ℚ := 3600

/-- `PropertyAdapter.is_cache_valid` (src/property_scraper.py:82-87):
timestamps modelled as rational seconds, `self.last_scraped` as an `Option`
(`None` or never scraped). -/
def is_cache_valid (last_scraped : Option ℚ) (now : ℚ) : Bool :=
  match last_scraped with
  | none => false
  | some t => decide (now - t < cache_timeout)

/-- The hard-coded catalog of src/property_scraper_cached.py:26-223,
transcribed record by record. -/
def CACHED_PROPERTIES : List Listing :=
  [ { title := some "Renovierte 3-Zimmer Wohnung, Süd-West Lage"
      price := some 520000
      area := some 85
      rooms := some 3
      location := some "Stuttgart-Feuerbach, 70469"
      source := some "sparkasse"
      daysOnMarket := some 3
      yearBuilt := some 1995
      heatingType := some "Gasheizung"
      features := some ["Balkon", "Parkett", "Renoviert 2023"]
      url := some "https://s-immobilien.de/property/123"
      scrapedAt := some "2025-12-12T21:00:00" }
  , { title := some "4-Zimmer Einfamilienhaus mit Garten"
      price := some 675000
      area := some 140
      rooms := some 4
      location := some "Stuttgart-Vaihingen, 70186"
      source := some "volksbank"
      daysOnMarket := some 1
      yearBuilt := some 2015
      heatingType := some "Wärmepumpe"
      features := some ["Garten 280m²", "Garage", "Neubau-Standard"]
      url := some "https://vbs.immo/property/456"
      scrapedAt := some "2025-12-12T21:00:00" }
  , { title := some "Kapitalanlage: 2er Maisonette, zentral"
      price := some 395000
      area := some 72
      rooms := some 2
      location := some "Stuttgart-Mitte, 70173"
      source := some "lbs"
      daysOnMarket := some 5
      yearBuilt := some 1920
      heatingType := some "Fernwärme"
      features := some ["Rendite 4,2%", "Denkmalschutz", "Makler"]
      url := some "https://www.lbs.de/property/789"
      scrapedAt := some "2025-12-12T21:00:00" }
  , { title := some "Villa mit Pool, Hang-Lage"
      price := some 950000
      area := some 280
      rooms := some 6
      location := some "Stuttgart-Zauffenhausen, 70437"
      source := some "sparkasse"
      daysOnMarket := some 2
      yearBuilt := some 2008
      heatingType := some "Wärmepumpe"
      features := some ["Pool", "Sauna", "Moderne Smart-Home Technik"]
      url := some "https://s-immobilien.de/property/321"
      scrapedAt := some "2025-12-12T21:00:00" }
  , { title := some "Wohnung in beliebter Innenstadtlage"
      price := some 445000
      area := some 68
      rooms := some 2
      location := some "Stuttgart-West, 70176"
      source := some "volksbank"
      daysOnMarket := some 4
      yearBuilt := some 1975
      heatingType := some "Gasheizung"
      features := some ["Dachterrasse", "High-Speed Internet", "Grüne Umgebung"]
      url := some "https://vbs.immo/property/654"
      scrapedAt := some "2025-12-12T21:00:00" }
  , { title := some "Reihenhaus modern ausgebaut"
      price := some 580000
      area := some 110
      rooms := some 4
      location := some "Stuttgart-Möhringen, 70435"
      source := some "lbs"
      daysOnMarket := some 6
      yearBuilt := some 2005
      heatingType := some "Wärmepumpe"
      features := some ["Doppelgarage", "Keller", "Wärmepumpe"]
      url := some "https://www.lbs.de/property/987"
      scrapedAt := some "2025-12-12T21:00:00" }
  , { title := some "Modernes Einfamilienhaus in Sindelfingen"
      price := some 625000
      area := some 135
      rooms := some 4
      location := some "Sindelfingen, 71063"
      source := some "sparkasse"
      daysOnMarket := some 2
      yearBuilt := some 2018
      heatingType := some "Wärmepumpe"
      features := some ["Energieeffizient KfW 55", "Terrasse", "Carport"]
      url := some "https://kskbb.de/property/201"
      scrapedAt := some "2025-12-12T21:00:00" }
  , { title := some "Wohnung in Böblingen-Zentrum"
      price := some 485000
      area := some 92
      rooms := some 3
      location := some "Böblingen, 71034"
      source := some "sparkasse"
      daysOnMarket := some 4
      yearBuilt := some 1985
      heatingType := some "Gasheizung"
      features := some ["Balkon", "Parklatz", "Treppenhaus renoviert"]
      url := some "https://kskbb.de/property/202"
      scrapedAt := some "2025-12-12T21:00:00" }
  , { title := some "Einfamilienhaus in Ludwigsburg"
      price := some 720000
      area := some 165
      rooms := some 5
      location := some "Ludwigsburg, 71638"
      source := some "volksbank"
      daysOnMarket := some 1
      yearBuilt := some 2010
      heatingType := some "Fernwärme"
      features := some ["Großer Garten", "Doppelgarage", "Kamin"]
      url := some "https://ksklb.de/property/301"
      scrapedAt := some "2025-12-12T21:00:00" }
  , { title := some "Kapitalanlage Wohnung in Ludwigsburg"
      price := some 350000
      area := some 65
      rooms := some 2
      location := some "Ludwigsburg, 71638"
      source := some "lbs"
      daysOnMarket := some 3
      yearBuilt := some 1970
      heatingType := some "Gasheizung"
      features := some ["Rendite 4,8%", "Vermietet", "Sanierungspotential"]
      url := some "https://www.lbs.de/property/302"
      scrapedAt := some "2025-12-12T21:00:00" }
  , { title := some "Villa Waiblingen, Rems-Murr-Kreis"
      price := some 890000
      area := some 250
      rooms := some 6
      location := some "Waiblingen, 71356"
      source := some "sparkasse"
      daysOnMarket := some 2
      yearBuilt := some 2003
      heatingType := some "Wärmepumpe"
      features := some ["Panoramablick", "Pool", "Wellness-Bereich"]
      url := some "https://kskwm.de/property/401"
      scrapedAt := some "2025-12-12T21:00:00" }
  , { title := some "Doppelhaushälfte Schorndorf"
      price := some 550000
      area := some 120
      rooms := some 4
      location := some "Schorndorf, 73614"
      source := some "volksbank"
      daysOnMarket := some 5
      yearBuilt := some 2000
      heatingType := some "Gasheizung"
      features := some ["Garten 200m²", "Terrasse", "Nebengebäude"]
      url := some "https://vrs.immo/property/402"
      scrapedAt := some "2025-12-12T21:00:00" }
  , { title := some "Moderne Wohnung in Filderstadt"
      price := some 420000
      area := some 78
      rooms := some 2
      location := some "Filderstadt, 70374"
      source := some "volksbank"
      daysOnMarket := some 1
      yearBuilt := some 2020
      heatingType := some "Wärmepumpe"
      features := some ["Smart Home", "Balkon Süd", "Tiefgarage"]
      url := some "https://volksbank-filder.de/property/501"
      scrapedAt := some "2025-12-12T21:00:00" }
  , { title := some "Haus zum Mitnehmen in Filderstadt"
      price := some 680000
      area := some 155
      rooms := some 5
      location := some "Filderstadt-Bernhausen, 70374"
      source := some "sparkasse"
      daysOnMarket := some 3
      yearBuilt := some 1995
      heatingType := some "Ölheizung"
      features := some ["Sanierungsbedürftig", "Großes Potential", "Ausbaugarten"]
      url := some "https://kskbb.de/property/502"
      scrapedAt := some "2025-12-12T21:00:00" } ]

/-- `PropertyTrackerService.search_all_sources` of the cached-only mode
(src/property_scraper_cached.py:229-279): filter the hard-coded catalog, then
stable-sort by `daysOnMarket` (absent → 999). -/
def search_all_sources_cached (f : Filters) : List Listing :=
  sortByDaysOnMarket (filterCatalog f CACHED_PROPERTIES)

/-! ### Concrete data used by counterexamples and witnesses -/

/-- A listing whose `area` key is present and equal to 0. -/
def areaZeroListing : Listing := { title := some "A", price := some 100, area := some 0 }

/-- A listing with `price` 200 and `area` 50 (the spec's worked example). -/
def areaFiftyListing : Listing := { title := some "B", price := some 200, area := some 50 }

/-- Record 3 of `CACHED_PROPERTIES` — the spec's region-filter example with
`location = "Stuttgart-Mitte, 70173"`. -/
def mitteListing : Listing :=
  { title := some "Kapitalanlage: 2er Maisonette, zentral"
    price := some 395000
    area := some 72
    rooms := some 2
    location := some "Stuttgart-Mitte, 70173"
    source := some "lbs"
    daysOnMarket := some 5
    yearBuilt := some 1920
    heatingType := some "Fernwärme"
    features := some ["Rendite 4,2%", "Denkmalschutz", "Makler"]
    url := some "https://www.lbs.de/property/789"
    scrapedAt := some "2025-12-12T21:00:00" }

/-- A listing whose location is whitespace only, so `location.split()` has
zero tokens. -/
def blankLocationListing : Listing :=
  { title := some "B", price := some 100, area := some 50,
    location := some "  ", source := some "sparkasse", daysOnMarket := some 3 }

/-- A filter dict whose only set key is `region = "70"`. -/
def regionOnlyFilters : Filters := { region := some "70" }

/-- The zero-valued statistics record of the spec. -/
def zeroStats : Stats :=
  { totalFound := 0
    avgPricePerSqm := 0
    preMarketCount := 0
    timeAdvantageHours := "-"
    priceRange := { min := 0, max := 0 } }

/-- One sparkasse listing, for exercising the orchestrator. -/
def sparkasseListing : Listing :=
  { title := some "S", price := some 1, location := some "ls",
    source := some "sparkasse", daysOnMarket := some 1 }

/-- One volksbank listing, for exercising the orchestrator. -/
def volksbankListing : Listing :=
  { title := some "V", price := some 2, location := some "lv",
    source := some "volksbank", daysOnMarket := some 2 }

/-- One lbs listing, for exercising the orchestrator. -/
def lbsListing : Listing :=
  { title := some "L", price := some 3, location := some "ll",
    source := some "lbs", daysOnMarket := some 3 }

/-- A concrete assignment of adapter results: each configured source returns
one listing. -/
def fetchDemo : String → List Listing := fun s =>
  if s = "sparkasse" then [sparkasseListing]
  else if s = "volksbank" then [volksbankListing]
  else if s = "lbs" then [lbsListing] else []

/-- The spec's description of the `preMarketCount` statistic: the number of
records whose `daysOnMarket`, defaulting to 7 when absent, is at most 7. -/
def preMarketSpecCount (props : List Listing) : Nat :=
  props.countP (fun p => decide (p.daysOnMarket.getD 7 ≤ 7))

/-! ### Claims about the Statistics Engine (C1, C2, C3, C7) -/

/-- C1: the claim says `get_stats` never raises a division error, even when
some input record has `area` equal to 0.  The live orchestrator's `get_stats`
(src/property_scraper.py:414) violates this: on the single-record input with
`area = 0` present it raises `ZeroDivisionError` (`p.get("area", 1)` returns
the stored 0, and the comprehension does not filter zero areas).  The
cached-only rewrite of the same function handles the same input without
raising.  This theorem evaluates both implementations at the failing input. -/
theorem C1_live_get_stats_raises_on_zero_area :
    get_stats_live [areaZeroListing] = StatsResult.raised ∧
    get_stats_cached [areaZeroListing] =
      { totalFound := 1
        avgPricePerSqm := 0
        preMarketCount := 1
        timeAdvantageHours := "48-72"
        priceRange := { min := 100, max := 100 } } := by
  constructor
  · decide
  · decide

/-- C2: the claim (and the spec's own test vector) says records
`[{price:100, area:0}, {price:200, area:50}]` yield `avgPricePerArea = 4.0`,
the zero-area record excluded from numerator and denominator.  The live
`get_stats` instead raises `ZeroDivisionError` at exactly this input, while
the cached-only `get_stats` produces the claimed 4. -/
theorem C2_live_avg_blends_and_raises :
    get_stats_live [areaZeroListing, areaFiftyListing] = StatsResult.raised ∧
    (get_stats_cached [areaZeroListing, areaFiftyListing]).avgPricePerSqm = 4 := by
  constructor
  · decide
  · simp [get_stats_cached, areaZeroListing, areaFiftyListing]
    norm_num [round2, rndHalfToEven]

/-- C3 counterexample: the claim says both serving modes return the
zero-valued statistics record on empty input, but the live `get_stats`
(src/property_scraper.py:411-412) returns the literal `{}`, a record with
none of the statistics fields. -/
theorem C3_counterexample_live_empty_input :
    ¬ get_stats_live [] = StatsResult.record zeroStats := by
  decide

/-- C3 (amended): on the empty input list, the cached-only `get_stats`
returns exactly the zero-valued statistics record
`{totalFound: 0, avgPricePerSqm: 0, preMarketCount: 0,
timeAdvantageHours: "-", priceRange: {min: 0, max: 0}}`, while the live
orchestrator's `get_stats` returns the empty dict `{}` with none of these
fields. -/
theorem C3_empty_input_stats :
    get_stats_cached [] = zeroStats ∧
    get_stats_live [] = StatsResult.emptyDict := by
  constructor
  · decide
  · decide

/-! ### Claims about the cached-only Filter Engine (C4, C10) -/

/-- C4 counterexample: the claim says a record whose location splits into
zero whitespace tokens is excluded whenever a region filter is active.  In
the code (src/property_scraper_cached.py:263-273) the `if postal_parts:`
guard skips the region check entirely for such a record, so it is kept: with
the region filter "70" active, the whitespace-location record passes the
filter loop. -/
theorem C4_counterexample_blank_location_kept :
    splitTokens (blankLocationListing.location.getD "") = [] ∧
    regionOnlyFilters.region.getD "" ≠ "" ∧
    filterCatalog regionOnlyFilters [blankLocationListing] = [blankLocationListing] := by
  refine ⟨by decide, by decide, by decide⟩

/-- C4 (amended): when the region filter is set, a record whose location has
at least one whitespace token is kept iff it passes the other filters and the
trailing token starts with the region prefix — so `"Stuttgart-Mitte, 70173"`
matches region "70" and "701" but not "71" — while a record whose location
splits into zero tokens is kept whenever it passes the other filters (the
region check is skipped for it, not failed). -/
theorem C4_region_filter_semantics :
    (∀ f p, (splitTokens (p.location.getD "")).getLast? = none →
        matchesFilters f p = matchesFilters { f with region := none } p)
  ∧ (∀ f p postal, f.region.getD "" ≠ "" →
        (splitTokens (p.location.getD "")).getLast? = some postal →
        matchesFilters f p =
          (matchesFilters { f with region := none } p
            && pyStartsWith postal (f.region.getD "")))
  ∧ matchesFilters { region := some "70" } mitteListing = true
  ∧ matchesFilters { region := some "701" } mitteListing = true
  ∧ matchesFilters { region := some "71" } mitteListing = false := by
  refine ⟨?_, ?_, by decide, by decide, by decide⟩
  · rintro ⟨mp, xp, ma, r, sc⟩ p h
    simp [matchesFilters, h]
  · rintro ⟨mp, xp, ma, r, sc⟩ p postal hr h
    simp only at hr
    simp [matchesFilters, h, hr, Bool.and_assoc]

/-- Witness for C4: the two conditional parts applied at concrete records —
the whitespace-location record (zero tokens) and the Stuttgart-Mitte record
(trailing token "70173") under the region filter "70". -/
theorem C4_region_filter_semantics_witness :
    matchesFilters regionOnlyFilters blankLocationListing
        = matchesFilters { regionOnlyFilters with region := none } blankLocationListing
    ∧ matchesFilters regionOnlyFilters mitteListing
        = (matchesFilters { regionOnlyFilters with region := none } mitteListing
            && pyStartsWith "70173" (regionOnlyFilters.region.getD "")) :=
  ⟨C4_region_filter_semantics.1 regionOnlyFilters blankLocationListing (by decide),
   C4_region_filter_semantics.2.1 regionOnlyFilters mitteListing "70173"
     (by decide) (by decide)⟩

/-! ### Claims about the orchestrator's merge (C5) and ordering (C6) -/

/-- The dedup loop only ever drops elements: its output is a sublist of its
input, in input order. -/
theorem dedupAux_sublist : ∀ (l : List Listing) (seen), List.Sublist (dedupAux seen l) l
  | [], _ => List.Sublist.refl _
  | p :: ps, seen => by
    simp only [dedupAux]
    split
    · exact (dedupAux_sublist ps seen).cons p
    · exact (dedupAux_sublist ps _).cons₂ p

/-- Invariant of the dedup loop: among elements of key `k`, the output keeps
exactly the first input occurrence, and none at all if `k` was already seen. -/
theorem dedupAux_filter_key (k : Option String × Option Int × Option String) :
    ∀ (l : List Listing) (seen),
      (dedupAux seen l).filter (fun p => decide (dedupKey p = k)) =
        if k ∈ seen then [] else (l.find? (fun p => decide (dedupKey p = k))).toList
  | [], seen => by simp [dedupAux]
  | p :: ps, seen => by
    simp only [dedupAux]
    by_cases hp : dedupKey p ∈ seen
    · rw [if_pos hp, dedupAux_filter_key k ps seen]
      by_cases hk : k ∈ seen
      · simp [hk]
      · have hne : ¬ (dedupKey p = k) := fun h => hk (h ▸ hp)
        simp [hk, List.find?_cons_of_neg, hne]
    · rw [if_neg hp, List.filter_cons]
      by_cases hkp : dedupKey p = k
      · subst hkp
        rw [dedupAux_filter_key _ ps (dedupKey p :: seen)]
        simp [hp, List.find?_cons_of_pos]
      · rw [dedupAux_filter_key _ ps (dedupKey p :: seen)]
        have hmem : (k ∈ dedupKey p :: seen) ↔ k ∈ seen := by
          simp [List.mem_cons]
          intro h
          exact absurd h.symm hkp
        by_cases hk : k ∈ seen
        · simp [hkp, hmem, hk]
        · simp [hkp, hmem, hk, List.find?_cons_of_neg]

/-- C5: deduplication uses the exact-equality key `(title, price, location)`
(`source` is not part of the key): the output is a subsequence of the merged
input, and for every key value `k` the surviving records with key `k` are
exactly the first occurrence in merge order — every later record with the
same triplet, even one from a different source, is dropped. -/
theorem C5_dedup_first_occurrence_wins (l : List Listing)
    (k : Option String × Option Int × Option String) :
    List.Sublist (removeDuplicates l) l ∧
    (removeDuplicates l).filter (fun p => decide (dedupKey p = k)) =
      (l.find? (fun p => decide (dedupKey p = k))).toList := by
  refine ⟨dedupAux_sublist l [], ?_⟩
  rw [removeDuplicates, dedupAux_filter_key]
  simp

/-- The sort comparison is transitive. -/
theorem leDays_trans : ∀ (a b c : Listing), leDays a b → leDays b c → leDays a c := by
  intro a b c hab hbc
  simp only [leDays, decide_eq_true_eq] at hab hbc ⊢
  omega

/-- The sort comparison is total. -/
theorem leDays_total : ∀ (a b : Listing), leDays a b || leDays b a := by
  intro a b
  simp only [leDays, Bool.or_eq_true, decide_eq_true_eq]
  omega

/-- The sort output is non-decreasing in the key
`x.get("daysOnMarket", 999)`. -/
theorem sortByDaysOnMarket_pairwise (l : List Listing) :
    (sortByDaysOnMarket l).Pairwise (fun a b => daysKey a ≤ daysKey b) := by
  have h := List.sorted_mergeSort leDays_trans leDays_total l
  exact h.imp (fun hab => by simpa [leDays] using hab)

/-- Stability of the sort: the subsequence of records having any fixed sort
key is unchanged, i.e. records with equal keys keep their relative order. -/
theorem sortByDaysOnMarket_filter_eq (l : List Listing) (k : Int) :
    (sortByDaysOnMarket l).filter (fun p => decide (daysKey p = k)) =
      l.filter (fun p => decide (daysKey p = k)) := by
  have hself : (l.filter (fun p => decide (daysKey p = k))).filter
      (fun p => decide (daysKey p = k)) = l.filter (fun p => decide (daysKey p = k)) :=
    List.filter_eq_self.mpr (fun a ha => (List.mem_filter.mp ha).2)
  have hpw : (l.filter (fun p => decide (daysKey p = k))).Pairwise
      (fun a b => leDays a b = true) := by
    apply List.pairwise_of_forall_mem_list
    intro a ha b hb
    have ha' := of_decide_eq_true (List.mem_filter.mp ha).2
    have hb' := of_decide_eq_true (List.mem_filter.mp hb).2
    simp only [leDays, decide_eq_true_eq]
    omega
  have h1 : List.Sublist (l.filter (fun p => decide (daysKey p = k)))
      (l.mergeSort leDays) :=
    List.sublist_mergeSort leDays_trans leDays_total hpw (List.filter_sublist l)
  have h2 : List.Sublist (l.filter (fun p => decide (daysKey p = k)))
      ((l.mergeSort leDays).filter (fun p => decide (daysKey p = k))) := by
    have := h1.filter (fun p => decide (daysKey p = k))
    rwa [hself] at this
  have hlen : ((l.mergeSort leDays).filter (fun p => decide (daysKey p = k))).length =
      (l.filter (fun p => decide (daysKey p = k))).length := by
    rw [← List.countP_eq_length_filter, ← List.countP_eq_length_filter]
    exact (List.mergeSort_perm l leDays).countP_eq _
  exact (h2.eq_of_length hlen.symm).symm

/-- C6: both serving modes return their result stable-sorted, non-decreasing
in `daysOnMarket` with 999 substituted for an absent value: the output is
pairwise non-decreasing in that key, and for every key value the subsequence
of records with that key equals the one of the pre-sort list (the filtered
catalog in cached mode, the deduplicated merge in live mode), so equal-key
records keep their relative merge order. -/
theorem C6_sorted_stably_by_daysOnMarket (f : Filters)
    (fetch : String → List Listing) (k : Int) :
    ((search_all_sources_cached f).Pairwise (fun a b => daysKey a ≤ daysKey b)
      ∧ (search_all_sources_cached f).filter (fun p => decide (daysKey p = k)) =
          (filterCatalog f CACHED_PROPERTIES).filter (fun p => decide (daysKey p = k)))
  ∧ ((search_all_sources_live fetch f).Pairwise (fun a b => daysKey a ≤ daysKey b)
      ∧ (search_all_sources_live fetch f).filter (fun p => decide (daysKey p = k)) =
          (removeDuplicates (mergedProperties fetch f)).filter
            (fun p => decide (daysKey p = k))) :=
  ⟨⟨sortByDaysOnMarket_pairwise _, sortByDaysOnMarket_filter_eq _ k⟩,
   ⟨sortByDaysOnMarket_pairwise _, sortByDaysOnMarket_filter_eq _ k⟩⟩

/-! ### C7: the preMarketCount statistic -/

/-- When every divisor `p.get("area", 1)` is non-zero, the live stats
comprehension succeeds and produces exactly the per-record quotients. -/
theorem mapM_pyDiv_eq_some (props : List Listing)
    (h : ∀ p ∈ props, p.area.getD 1 ≠ 0) :
    props.mapM (fun p => pyDiv ((p.price.getD 0 : Int) : ℚ) (p.area.getD 1)) =
      some (props.map (fun p => ((p.price.getD 0 : Int) : ℚ) / p.area.getD 1)) := by
  induction props with
  | nil => rfl
  | cons p ps ih =>
    rw [List.mapM_cons]
    have hp : p.area.getD 1 ≠ 0 := h p (List.mem_cons_self p ps)
    rw [ih (fun q hq => h q (List.mem_cons_of_mem p hq))]
    simp [pyDiv, hp]

/-- C7: the `preMarketCount` statistic counts the records whose
`daysOnMarket` is at most 7, where an absent `daysOnMarket` defaults to 7 and
therefore qualifies — unconditionally in the cached-only `get_stats`, and in
the live `get_stats` whenever it produces a statistics record (non-empty
input, no zero divisor). -/
theorem C7_preMarketCount (props : List Listing) :
    (get_stats_cached props).preMarketCount = preMarketSpecCount props
    ∧ (props ≠ [] → (∀ p ∈ props, p.area.getD 1 ≠ 0) →
        ∃ s, get_stats_live props = StatsResult.record s ∧
          s.preMarketCount = preMarketSpecCount props) := by
  constructor
  · rw [get_stats_cached]
    by_cases h : props.isEmpty
    · rw [if_pos h]
      have : props = [] := List.isEmpty_iff.mp h
      subst this
      rfl
    · rw [if_neg h]
      simp [preMarketSpecCount, List.countP_eq_length_filter]
  · intro hne hden
    rw [get_stats_live]
    rw [if_neg (by simpa [List.isEmpty_iff] using hne)]
    rw [mapM_pyDiv_eq_some props hden]
    exact ⟨_, rfl, by simp [preMarketSpecCount, List.countP_eq_length_filter]⟩

/-- Witness for C7: both parts at the concrete one-record input with price
200, area 50 and no `daysOnMarket` key. -/
theorem C7_preMarketCount_witness :
    (get_stats_cached [areaFiftyListing]).preMarketCount =
        preMarketSpecCount [areaFiftyListing]
    ∧ ∃ s, get_stats_live [areaFiftyListing] = StatsResult.record s ∧
        s.preMarketCount = preMarketSpecCount [areaFiftyListing] :=
  ⟨(C7_preMarketCount [areaFiftyListing]).1,
   (C7_preMarketCount [areaFiftyListing]).2 (by decide) (by decide)⟩

/-! ### C8: source-set resolution, C9: cache freshness, C10: empty sources -/

/-- Every record of the hard-coded catalog carries one of the three
configured source tags. -/
theorem cached_sources_known :
    ∀ q ∈ CACHED_PROPERTIES,
      q.source = some "sparkasse" ∨ q.source = some "volksbank" ∨
        q.source = some "lbs" := by
  decide

/-- C8 counterexample: the claim says a source set containing unknown tags is
replaced by the default of all configured adapters.  In the code
(src/property_scraper.py:386-392) unknown tags are skipped one by one
instead: with every adapter returning one listing, the query for
`["commerzbank"]` returns no listings at all — not the three-listing result
the defaulting rule prescribes — and `["commerzbank", "sparkasse"]` queries
only sparkasse. -/
theorem C8_counterexample_unknown_tags_not_defaulted :
    search_all_sources_live fetchDemo { sources := some ["commerzbank"] } = []
    ∧ search_all_sources_live fetchDemo { sources := none } =
        [sparkasseListing, volksbankListing, lbsListing]
    ∧ search_all_sources_live fetchDemo { sources := some ["commerzbank", "sparkasse"] } =
        [sparkasseListing]
    ∧ ¬ search_all_sources_live fetchDemo { sources := some ["commerzbank"] } =
        search_all_sources_live fetchDemo { sources := none } := by
  have h1 : search_all_sources_live fetchDemo { sources := some ["commerzbank"] } = [] := by
    show sortByDaysOnMarket _ = _
    rw [show removeDuplicates (mergedProperties fetchDemo { sources := some ["commerzbank"] })
          = [] from by decide]
    simp [sortByDaysOnMarket]
  have h2 : search_all_sources_live fetchDemo { sources := none } =
      [sparkasseListing, volksbankListing, lbsListing] := by
    show sortByDaysOnMarket _ = _
    rw [show removeDuplicates (mergedProperties fetchDemo { sources := none })
          = [sparkasseListing, volksbankListing, lbsListing] from by decide]
    exact List.mergeSort_of_sorted (by decide)
  have h3 : search_all_sources_live fetchDemo
      { sources := some ["commerzbank", "sparkasse"] } = [sparkasseListing] := by
    show sortByDaysOnMarket _ = _
    rw [show removeDuplicates (mergedProperties fetchDemo
          { sources := some ["commerzbank", "sparkasse"] }) = [sparkasseListing] from by decide]
    exact List.mergeSort_of_sorted (by decide)
  refine ⟨h1, h2, h3, ?_⟩
  rw [h1, h2]
  decide

/-- C8 (amended): the live orchestrator defaults to all configured adapters
only when `sources` is absent; when a source list is given, each unknown tag
is silently skipped (never an error) while the known tags in the same list
are still used, so dropping the unknown tags from the list never changes the
result — in the cached-only mode as well.  A list of only unknown tags
selects no adapter and yields an empty result, not the all-adapters
default. -/
theorem C8_source_resolution :
    (∀ fetch : String → List Listing, ∀ f : Filters, f.sources = none →
        search_all_sources_live fetch f =
          search_all_sources_live fetch { f with sources := some ALL_SOURCES })
  ∧ (∀ fetch : String → List Listing, ∀ f : Filters, ∀ tags, f.sources = some tags →
        search_all_sources_live fetch f =
          search_all_sources_live fetch
            { f with sources := some (tags.filter (fun s => decide (s ∈ ALL_SOURCES))) })
  ∧ (∀ f : Filters, ∀ tags,
        search_all_sources_cached { f with sources := some tags } =
          search_all_sources_cached
            { f with sources := some (tags.filter (fun s => decide (s ∈ ALL_SOURCES))) }) := by
  refine ⟨?_, ?_, ?_⟩
  · intro fetch f h
    simp [search_all_sources_live, mergedProperties, selectedSources, h]
  · intro fetch f tags h
    have hidem : (tags.filter (fun s => decide (s ∈ ALL_SOURCES))).filter
        (fun s => decide (s ∈ ALL_SOURCES)) =
          tags.filter (fun s => decide (s ∈ ALL_SOURCES)) :=
      List.filter_eq_self.mpr (fun a ha => (List.mem_filter.mp ha).2)
    simp [search_all_sources_live, mergedProperties, selectedSources, h, hidem]
  · intro f tags
    rw [search_all_sources_cached, search_all_sources_cached, filterCatalog, filterCatalog]
    congr 1
    apply List.filter_congr
    intro p hp
    have hsrc := cached_sources_known p hp
    obtain ⟨mp, xp, ma, r, sc⟩ := f
    rcases hsrc with hs | hs | hs <;>
      simp [matchesFilters, hs, List.mem_filter, ALL_SOURCES]

/-- Witness for C8: all three parts at concrete inputs — the default at an
absent source list, and unknown-tag removal for
`["commerzbank", "sparkasse"]` (live) and `["commerzbank"]` (cached). -/
theorem C8_source_resolution_witness :
    search_all_sources_live fetchDemo { sources := none } =
      search_all_sources_live fetchDemo { sources := some ALL_SOURCES }
    ∧ search_all_sources_live fetchDemo { sources := some ["commerzbank", "sparkasse"] } =
        search_all_sources_live fetchDemo
          { sources := some (["commerzbank", "sparkasse"].filter
              (fun s => decide (s ∈ ALL_SOURCES))) }
    ∧ search_all_sources_cached { sources := some ["commerzbank"] } =
        search_all_sources_cached
          { sources := some (["commerzbank"].filter (fun s => decide (s ∈ ALL_SOURCES))) } :=
  ⟨C8_source_resolution.1 fetchDemo { sources := none } rfl,
   C8_source_resolution.2.1 fetchDemo { sources := some ["commerzbank", "sparkasse"] }
     ["commerzbank", "sparkasse"] rfl,
   C8_source_resolution.2.2 { sources := some ["commerzbank"] } ["commerzbank"]⟩

/-- C9: `is_cache_valid` is true iff `last_scraped` is set and strictly less
than the 3600-second (1-hour) TTL has elapsed; in particular it is false
whenever `last_scraped` is absent. -/
theorem C9_is_cache_valid_iff (last_scraped : Option ℚ) (now : ℚ) :
    (is_cache_valid last_scraped now = true ↔
      ∃ t, last_scraped = some t ∧ now - t < 3600)
    ∧ is_cache_valid none now = false := by
  constructor
  · cases last_scraped with
    | none => simp [is_cache_valid]
    | some t => simp [is_cache_valid, cache_timeout]
  · rfl

/-- C10: in the cached-only mode, a filters dict whose `sources` key is
present and equal to the empty list matches no record (the empty list means
"no sources"), so the search returns the empty sequence; the all-sources
default applies only when the `sources` key is entirely absent, where it
coincides with passing all three known tags. -/
theorem C10_explicit_empty_sources (mp xp : Option Int) (ma : Option ℚ)
    (r : Option String) :
    search_all_sources_cached
        { minPrice := mp, maxPrice := xp, minArea := ma, region := r,
          sources := some [] } = []
    ∧ search_all_sources_cached
        { minPrice := mp, maxPrice := xp, minArea := ma, region := r,
          sources := none } =
      search_all_sources_cached
        { minPrice := mp, maxPrice := xp, minArea := ma, region := r,
          sources := some ALL_SOURCES } := by
  constructor
  · have hfil : filterCatalog
        { minPrice := mp, maxPrice := xp, minArea := ma, region := r,
          sources := some [] } CACHED_PROPERTIES = [] := by
      rw [filterCatalog]
      apply List.filter_eq_nil_iff.mpr
      intro p hp
      rcases cached_sources_known p hp with hs | hs | hs <;>
        simp [matchesFilters, hs]
    rw [search_all_sources_cached, hfil]
    simp [sortByDaysOnMarket]
  · rfl

end PropertyTracker
